import Mathlib

set_option maxRecDepth 100000

/-!
Shallow embedding of the bug-reporter agent core (src/agent/agent.py) and
verification of the specified properties of its report store and
context-assembly pipeline.

The embedding covers the deterministic core only: the `BugReport` record and
its tool operations (`save_report_field`, `get_report_status`,
`generate_summary`), and the instruction-assembly functions
(`load_product_docs`, `build_agent_instructions`).  Filesystem contents are
passed explicitly (a `DocsDir` value) where the source performs reads; tool
methods that mutate `self.bug_report` are modelled as state-passing functions
returning the updated record, and pure reads return the record unchanged.
Python truthiness of `Optional[str]` values (`None` and `""` are falsy) is
modelled by `truthy`, and Python f-string rendering of an `Optional[str]`
(`None` prints as "None") by `pyStr`.
-/

/-- The `valid_fields` list of `save_report_field` (agent.py lines 253-257);
the same 11-name literal reappears as `all_fields` in `get_filled_fields`. -/
def valid_fields : List String :=
  ["description", "expected_behaviour", "steps_to_reproduce", "priority",
   "issue_type", "error_message", "logged_in_user", "url", "page_title",
   "browser", "loom_link"]

/-- The legal values for the `priority` field (agent.py line 263). -/
def priority_values : List String := ["Urgent", "High", "Medium", "Low"]

/-- The legal values for the `issue_type` field (agent.py line 267). -/
def issue_type_values : List String := ["bug", "feature_request"]

/-- The required-field list of `get_missing_required_fields` (agent.py line 220). -/
def required_fields : List String :=
  ["description", "expected_behaviour", "steps_to_reproduce", "priority", "issue_type"]

/-- The `BugReport` dataclass (agent.py lines 199-216): eleven
`Optional[str]` fields, all defaulting to `None`. -/
structure BugReport where
  description : Option String := none
  expected_behaviour : Option String := none
  steps_to_reproduce : Option String := none
  priority : Option String := none
  issue_type : Option String := none
  error_message : Option String := none
  logged_in_user : Option String := none
  url : Option String := none
  page_title : Option String := none
  browser : Option String := none
  loom_link : Option String := none
deriving DecidableEq

/-- The fresh record created per conversation (`BugReport()`, agent.py line 235). -/
def emptyBugReport : BugReport := {}

/-- Python `getattr(report, f)` for the eleven known field names. -/
def getField (r : BugReport) : String → Option String
  | "description" => r.description
  | "expected_behaviour" => r.expected_behaviour
  | "steps_to_reproduce" => r.steps_to_reproduce
  | "priority" => r.priority
  | "issue_type" => r.issue_type
  | "error_message" => r.error_message
  | "logged_in_user" => r.logged_in_user
  | "url" => r.url
  | "page_title" => r.page_title
  | "browser" => r.browser
  | "loom_link" => r.loom_link
  | _ => none

/-- Python `setattr(report, f, value)` (agent.py line 270); `save_report_field`
only reaches it with a name drawn from `valid_fields`, so unknown names leave
the record unchanged. -/
def setField (r : BugReport) (f v : String) : BugReport :=
  if f = "description" then { r with description := some v }
  else if f = "expected_behaviour" then { r with expected_behaviour := some v }
  else if f = "steps_to_reproduce" then { r with steps_to_reproduce := some v }
  else if f = "priority" then { r with priority := some v }
  else if f = "issue_type" then { r with issue_type := some v }
  else if f = "error_message" then { r with error_message := some v }
  else if f = "logged_in_user" then { r with logged_in_user := some v }
  else if f = "url" then { r with url := some v }
  else if f = "page_title" then { r with page_title := some v }
  else if f = "browser" then { r with browser := some v }
  else if f = "loom_link" then { r with loom_link := some v }
  else r

/-- Python truthiness of an `Optional[str]`: `None` and `""` are falsy. -/
def truthy : Option String → Bool
  | none => false
  | some s => !(s == "")

/-- Python f-string rendering of an `Optional[str]`: `None` prints as "None". -/
def pyStr : Option String → String
  | none => "None"
  | some s => s

/-- `BugReport.get_missing_required_fields` (agent.py lines 218-221): the
required names whose attribute is still `None`, in the fixed required order. -/
def BugReport.get_missing_required_fields (r : BugReport) : List String :=
  required_fields.filter (fun f => (getField r f).isNone)

/-- `BugReport.get_filled_fields` (agent.py lines 223-230): the set fields
paired with their values, in declaration order (Python dicts preserve
insertion order, so the comprehension yields `all_fields` order). -/
def BugReport.get_filled_fields (r : BugReport) : List (String × String) :=
  valid_fields.filterMap (fun f => (getField r f).map (fun v => (f, v)))

/-- The `save_report_field` tool (agent.py lines 242-271), returning the
string handed back to the dialogue manager together with the record after the
call. -/
def save_report_field (r : BugReport) (field_name value : String) :
    String × BugReport :=
  if field_name ∉ valid_fields then
    ("Error: \x27" ++ field_name ++ "\x27 is not a valid field. Valid fields are: " ++
      String.intercalate ", " valid_fields, r)
  else if field_name = "priority" ∧ value ∉ priority_values then
    ("Error: priority must be one of: Urgent, High, Medium, Low. Got: " ++ value, r)
  else if field_name = "issue_type" ∧ value ∉ issue_type_values then
    ("Error: issue_type must be one of: bug, feature_request. Got: " ++ value, r)
  else
    ("Saved " ++ field_name ++ ": " ++ value, setField r field_name value)

/-- Display truncation of `get_report_status` (agent.py line 288):
`value if len(value) <= 100 else value[:100] + "..."`. -/
def display_value (v : String) : String :=
  if v.length ≤ 100 then v else v.take 100 ++ "..."

/-- The `status_parts` list assembled by `get_report_status`
(agent.py lines 282-294) before the final join. -/
def status_parts (r : BugReport) : List String :=
  let filled := r.get_filled_fields
  let missing := r.get_missing_required_fields
  (if filled ≠ [] then
    "Collected so far:" ::
      filled.map (fun fv => "  - " ++ fv.1 ++ ": " ++ display_value fv.2)
  else []) ++
  (if missing ≠ [] then
    ["\nStill needed (required): " ++ String.intercalate ", " missing]
  else
    ["\nAll required fields collected! Ready to summarise and confirm with the client."])

/-- The `get_report_status` tool (agent.py lines 273-296): a pure read that
joins `status_parts` and leaves the record untouched. -/
def get_report_status (r : BugReport) : String × BugReport :=
  (String.intercalate "\n" (status_parts r), r)

/-- The unconditional head of `summary_lines` (agent.py lines 362-373):
required fields rendered in the fixed order issue_type, priority,
description, expected_behaviour, steps_to_reproduce. -/
def required_summary_lines (r : BugReport) : List String :=
  ["## Bug Report Summary",
   "",
   "**Issue Type:** " ++ pyStr r.issue_type,
   "**Priority:** " ++ pyStr r.priority,
   "",
   "**Description:** " ++ pyStr r.description,
   "",
   "**Expected Behaviour:** " ++ pyStr r.expected_behaviour,
   "",
   "**Steps to Reproduce:** " ++ pyStr r.steps_to_reproduce]

/-- The conditional appends of `summary_lines` (agent.py lines 376-385): each
guard is Python truthiness of the field.  Note the source renders
`error_message`, `url`, `page_title`, `browser` and `loom_link` only —
`logged_in_user` is never rendered. -/
def optional_summary_lines (r : BugReport) : List String :=
  (if truthy r.error_message then ["\n**Error Message:** " ++ pyStr r.error_message] else []) ++
  (if truthy r.url then ["**URL:** " ++ pyStr r.url] else []) ++
  (if truthy r.page_title then ["**Page:** " ++ pyStr r.page_title] else []) ++
  (if truthy r.browser then ["**Browser:** " ++ pyStr r.browser] else []) ++
  (if truthy r.loom_link then ["**Recording:** " ++ pyStr r.loom_link] else [])

/-- The full `summary_lines` list of `generate_summary` (agent.py lines 362-385). -/
def summary_lines (r : BugReport) : List String :=
  required_summary_lines r ++ optional_summary_lines r

/-- The `generate_summary` tool (agent.py lines 347-393).  The result is the
string returned to the dialogue manager, paired with the summary text sent to
the client chat channel (`none` when the call fails the completeness check),
and the record after the call. -/
def generate_summary (r : BugReport) : (String × Option String) × BugReport :=
  let missing := r.get_missing_required_fields
  if missing ≠ [] then
    (("Cannot generate summary yet. Missing required fields: " ++
      String.intercalate ", " missing, none), r)
  else
    let summary := String.intercalate "\n" (summary_lines r)
    (("Summary sent to client. Ask them to confirm if everything looks correct, or let you know what needs to be changed.",
      some summary), r)

/-- Lexicographic comparison of character lists, modelling the string
ordering that Python's `sorted` applies to the globbed paths. -/
def charsLe : List Char → List Char → Bool
  | [], _ => true
  | _ :: _, [] => false
  | a :: as, b :: bs => if a < b then true else if b < a then false else charsLe as bs

/-- String comparison by underlying characters. -/
def strLe (a b : String) : Bool := charsLe a.data b.data

/-- Insertion of one element into an already sorted list. -/
def insert_le {α : Type} (le : α → α → Bool) (x : α) : List α → List α
  | [] => [x]
  | y :: ys => if le x y then x :: y :: ys else y :: insert_le le x ys

/-- Insertion sort, modelling Python's `sorted` (the repository only needs
the result to be ordered by the given comparison). -/
def py_sorted {α : Type} (le : α → α → Bool) (l : List α) : List α :=
  l.foldr (insert_le le) []

/-- One candidate documentation directory, standing in for the filesystem
state read by `load_product_docs`: whether `repo/docs/ai` exists, and the
`*.md` entries it contains as (filename, content) pairs, filenames including
the `.md` extension, in arbitrary enumeration order. -/
structure DocsDir where
  dirExists : Bool
  mdFiles : List (String × String)

/-- Python `Path.stem` for a filename matched by the `*.md` glob: the name
with its final `.md` suffix (3 characters) removed. -/
def file_stem (name : String) : String := name.dropRight 3

/-- `load_product_docs` (agent.py lines 19-50) with the filesystem passed
explicitly.  A missing folder or an empty glob returns a sentinel message;
otherwise the files are sorted for consistent order and joined, each under a
`### stem` header, with `---` separators. -/
def load_product_docs (repo_path : String) (dir : DocsDir) : String :=
  let docs_path := repo_path ++ "/docs/ai"
  if !dir.dirExists then
    "No documentation found at " ++ docs_path
  else
    let md_files := py_sorted (fun a b => strLe a.1 b.1) dir.mdFiles
    if md_files = [] then
      "No .md files found in " ++ docs_path
    else
      String.intercalate "\n\n---\n\n"
        (md_files.map (fun fc => "### " ++ file_stem fc.1 ++ "\n\n" ++ fc.2))

/-- Module-level `PRODUCT_DOCS` (agent.py line 55): `None` when the
`TARGET_REPO_PATH` configuration is unset (or empty, by Python truthiness),
otherwise the loaded docs string. -/
def init_product_docs (target_repo_path : Option String) (dir : DocsDir) : Option String :=
  if truthy target_repo_path then some (load_product_docs (pyStr target_repo_path) dir)
  else none

/-- The `base_instructions` template of `build_agent_instructions`
(agent.py lines 66-170), reproduced line by line: the triple-quoted literal
opens with a newline, each content line carries its indentation, and the
literal closes after a final newline and four spaces. -/
def base_instructions : String := String.intercalate "\n"
  ["",
   "        You are a bug reporting assistant. Your job is to efficiently gather information",
   "        about bugs or issues to create a clear, actionable ticket for developers.",
   "",
   "        ## Opening the conversation",
   "",
   "        1. Greet the client briefly",
   "        2. Tell them you\x27re checking the product documentation to make sure you have full context",
   "        3. Then explain: \"I\x27ll ask you a few questions to understand the issue. Some might seem",
   "           obvious, but they help uncover details that are useful for our developers.\"",
   "        4. Ask them to describe what happened",
   "",
   "        ## Gathering information",
   "",
   "        Your goal is to collect: description, expected behaviour, steps to reproduce, priority,",
   "        and issue type. Be efficient:",
   "",
   "        - NEVER ask \"what did you expect to happen?\" if it\x27s obvious from context. If someone",
   "          says \"the audio didn\x27t play\", clearly they expected audio to play. Just record that.",
   "        - NEVER repeat back what the user said and ask \"is this correct?\" — just move on.",
   "        - NEVER ask for clarification on obvious things. Use common sense and product knowledge.",
   "        - If the user already explained the steps while describing the issue, don\x27t ask again.",
   "",
   "        ALWAYS ask these diagnostic questions:",
   "        - What browser were you using?",
   "        - Do you have a screen recording (like a Loom) of the issue? If not, offer to send guidance.",
   "",
   "        ## Using product knowledge",
   "",
   "        CRITICAL: You have product documentation. Use it to:",
   "        - Understand what the product does and how it should behave",
   "        - Infer expected behaviour without asking (e.g., if it\x27s a voice agent, audio should work)",
   "        - Only ask questions relevant to the product\x27s actual features",
   "        - Distinguish bugs (broken features) from feature requests (new features)",
   "",
   "        ## Priority levels",
   "",
   "        The priority levels are:",
   "        - Urgent: Platform offline, serious brand damage, or blocking revenue",
   "        - High: Major feature broken but platform still works",
   "        - Medium: Annoying bug but users can still use the product",
   "        - Low: Minor styling or cosmetic issue",
   "",
   "        When discussing priority:",
   "        - If you can infer the priority from what they\x27ve described, SUGGEST it first and explain",
   "          why (e.g., \"Based on what you\x27ve described, this sounds like a High priority since the",
   "          main feature isn\x27t working, but the platform is still accessible. Does that sound right?\")",
   "        - If you need to ask, briefly explain what each level means so they can choose",
   "",
   "        ## Your style",
   "",
   "        - Be direct and efficient, not overly formal or chatty",
   "        - Keep responses SHORT — this is voice, not text",
   "        - Don\x27t over-apologise or over-thank",
   "        - Move the conversation forward, don\x27t circle back",
   "        - You\x27re a bot helping gather info for a human team — be honest about that",
   "",
   "        ## Using your tools",
   "",
   "        As you gather information, use the save_report_field tool to record each piece.",
   "        Valid field names are:",
   "        - description: What the issue is",
   "        - expected_behaviour: What should have happened",
   "        - steps_to_reproduce: How to recreate the issue",
   "        - priority: Must be one of: Urgent, High, Medium, Low",
   "        - issue_type: Must be one of: bug, feature_request",
   "        - error_message: Any error message they saw",
   "        - logged_in_user: Their email or username if logged in",
   "        - url: The URL where the issue occurred",
   "        - page_title: The title of the page they were on",
   "        - browser: Which browser they were using",
   "        - loom_link: Link to their screen recording",
   "",
   "        Use get_report_status to check what you\x27ve collected and what\x27s still missing.",
   "        The required fields are: description, expected_behaviour, steps_to_reproduce,",
   "        priority, and issue_type. Don\x27t ask to submit until all required fields are filled.",
   "",
   "        ## Sharing links and text with the client",
   "",
   "        Use send_text_to_client to display text in the client\x27s chat window. This is useful for:",
   "        - Sharing links they need to click",
   "        - Displaying summaries they can review",
   "        - Showing the final GitHub issue URL",
   "",
   "        IMPORTANT: When sharing links or asking for text input, you MUST actually call",
   "        the tool — don\x27t just say you\x27re sharing a link. The client can\x27t see links",
   "        unless you call the tool.",
   "",
   "        - send_loom_guidance: Call this when the client needs help creating a screen recording.",
   "          It sends them a clickable link to Loom\x27s getting started guide.",
   "        - request_text_input: Call this when you need the client to type something (like a",
   "          URL or email). It opens the chat and prompts them to type there.",
   "",
   "        ## Summary and confirmation",
   "",
   "        Once all required fields are collected, call generate_summary to display a formatted",
   "        summary in the client\x27s chat. Then ask them verbally to review it and confirm if",
   "        everything looks correct.",
   "",
   "        - If they confirm it\x27s correct, you can proceed to submit the bug report.",
   "        - If they want to change something, update the relevant field using save_report_field,",
   "          then call generate_summary again to show the updated version. When you do this,",
   "          just say \"I\x27ve updated that\" — do NOT read the entire summary out loud again.",
   "          The client can see the updated summary in the chat.",
   "    "]

/-- The fixed text of the `product_context` f-string (agent.py lines 174-191)
that precedes the interpolated `PRODUCT_DOCS` value. -/
def product_context_header : String := String.intercalate "\n"
  ["",
   "",
   "        ## Product knowledge",
   "",
   "        IMPORTANT: You have documentation about the specific product below. You MUST use",
   "        this to tailor your questions. Do not ask about features the product doesn\x27t have.",
   "",
   "        Use the product documentation to:",
   "        - Understand what features exist and how they should work",
   "        - ONLY ask diagnostic questions relevant to the product\x27s actual features",
   "        - If the product has no login system, never ask about login or user accounts",
   "        - If the product has no dashboard, never ask about dashboard issues",
   "        - Determine if what the client describes is a bug (something broken) or a",
   "          feature request (something that doesn\x27t exist yet)",
   "        - Reference specific parts of the product when clarifying the issue",
   "",
   "        Here is the product documentation:",
   "",
   "        "]

/-- The fixed text of the `product_context` f-string after the interpolated
`PRODUCT_DOCS` value (agent.py lines 192-193). -/
def product_context_footer : String := "\n        "

/-- The `product_context` f-string (agent.py lines 174-193) for a given
loaded docs string. -/
def product_context (docs : String) : String :=
  product_context_header ++ docs ++ product_context_footer

/-- `build_agent_instructions` (agent.py lines 58-196), as a function of the
module-level `PRODUCT_DOCS` value: the reference section is appended exactly
when `PRODUCT_DOCS` is truthy. -/
def build_agent_instructions : Option String → String
  | some docs => if docs ≠ "" then base_instructions ++ product_context docs else base_instructions
  | none => base_instructions

/-! ## Derived notions used by the verification -/

/-- A `save_report_field` call that passes every validation gate: known field
name, and a legal enumeration value when the field is `priority` or
`issue_type`. -/
def ValidCall (name value : String) : Prop :=
  name ∈ valid_fields ∧ (name = "priority" → value ∈ priority_values) ∧
    (name = "issue_type" → value ∈ issue_type_values)

instance (n v : String) : Decidable (ValidCall n v) :=
  inferInstanceAs (Decidable (_ ∧ _))

/-- The record reached from `r` by a sequence of `save_report_field` calls. -/
def apply_calls (r : BugReport) (calls : List (String × String)) : BugReport :=
  calls.foldl (fun s c => (save_report_field s c.1 c.2).2) r

/-- The value of the last valid write to field `f` in a call sequence, or
`none` when the sequence contains no valid write to `f`. -/
def last_valid_write : List (String × String) → String → Option String
  | [], _ => none
  | c :: cs, f =>
    Option.or (last_valid_write cs f)
      (if c.1 = f ∧ ValidCall c.1 c.2 then some c.2 else none)

/-! ## Field access lemmas -/

theorem getField_setField (r : BugReport) (f v g : String)
    (hf : f ∈ valid_fields) (hg : g ∈ valid_fields) :
    getField (setField r f v) g = if f = g then some v else getField r g := by
  simp only [valid_fields, List.mem_cons, List.mem_singleton, List.not_mem_nil,
    or_false] at hf hg
  rcases hf with rfl | rfl | rfl | rfl | rfl | rfl | rfl | rfl | rfl | rfl | rfl <;>
    rcases hg with rfl | rfl | rfl | rfl | rfl | rfl | rfl | rfl | rfl | rfl | rfl <;>
    simp [setField, getField]

theorem getField_save (r : BugReport) (name value g : String)
    (hg : g ∈ valid_fields) :
    getField (save_report_field r name value).2 g =
      if name = g ∧ ValidCall name value then some value else getField r g := by
  by_cases hf : name ∈ valid_fields
  · by_cases hp : name = "priority" ∧ value ∉ priority_values
    · have h2 : (save_report_field r name value).2 = r := by
        obtain ⟨hn, hv⟩ := hp
        subst hn
        simp [save_report_field, hv, valid_fields]
      rw [h2, if_neg]
      rintro ⟨rfl, hvc⟩
      exact hp.2 (hvc.2.1 hp.1)
    · by_cases hi : name = "issue_type" ∧ value ∉ issue_type_values
      · have h2 : (save_report_field r name value).2 = r := by
          obtain ⟨hn, hv⟩ := hi
          subst hn
          simp [save_report_field, hv, valid_fields]
        rw [h2, if_neg]
        rintro ⟨rfl, hvc⟩
        exact hi.2 (hvc.2.2 hi.1)
      · have hvc : ValidCall name value := by
          refine ⟨hf, fun hn => ?_, fun hn => ?_⟩
          · by_contra hvv; exact hp ⟨hn, hvv⟩
          · by_contra hvv; exact hi ⟨hn, hvv⟩
        have h2 : (save_report_field r name value).2 = setField r name value := by
          simp [save_report_field, hf, hp, hi]
        rw [h2, getField_setField r name value g hf hg]
        by_cases hng : name = g
        · subst hng
          simp [hvc]
        · simp [hng]
  · have h2 : (save_report_field r name value).2 = r := by
      simp [save_report_field, hf]
    rw [h2, if_neg]
    rintro ⟨rfl, hvc⟩
    exact hf hvc.1

theorem getField_apply_calls (calls : List (String × String)) :
    ∀ (r : BugReport) (f : String), f ∈ valid_fields →
      getField (apply_calls r calls) f =
        Option.or (last_valid_write calls f) (getField r f) := by
  induction calls with
  | nil => intro r f _; rfl
  | cons c cs ih =>
    intro r f hf
    have h1 : apply_calls r (c :: cs) = apply_calls (save_report_field r c.1 c.2).2 cs := rfl
    rw [h1, ih _ f hf, getField_save r c.1 c.2 f hf]
    simp only [last_valid_write]
    cases last_valid_write cs f
    · by_cases hc : c.1 = f ∧ ValidCall c.1 c.2
      · rw [if_pos hc, if_pos hc]; rfl
      · rw [if_neg hc, if_neg hc]; rfl
    · rfl

theorem getField_empty (f : String) (hf : f ∈ valid_fields) :
    getField emptyBugReport f = none := by
  simp only [valid_fields, List.mem_cons, List.mem_singleton, List.not_mem_nil,
    or_false] at hf
  rcases hf with rfl | rfl | rfl | rfl | rfl | rfl | rfl | rfl | rfl | rfl | rfl <;> rfl

/-! ## C1 -/

/-- C1: for every record and every `save_report_field` call, an unknown field
name fails with the error that names the offending field and enumerates the
valid set, an illegal `priority` or `issue_type` value fails with the error
stating the legal set, and in each failing case the returned record is the
record before the call. -/
theorem save_report_field_invalid_cases (r : BugReport) (name value : String) :
    (name ∉ valid_fields →
      save_report_field r name value =
        ("Error: \x27" ++ name ++ "\x27 is not a valid field. Valid fields are: " ++
          String.intercalate ", " valid_fields, r)) ∧
    (name = "priority" → value ∉ priority_values →
      save_report_field r name value =
        ("Error: priority must be one of: Urgent, High, Medium, Low. Got: " ++ value, r)) ∧
    (name = "issue_type" → value ∉ issue_type_values →
      save_report_field r name value =
        ("Error: issue_type must be one of: bug, feature_request. Got: " ++ value, r)) := by
  refine ⟨fun h => ?_, fun hn hv => ?_, fun hn hv => ?_⟩
  · simp [save_report_field, h]
  · subst hn
    simp [save_report_field, hv, valid_fields]
  · subst hn
    simp [save_report_field, hv, valid_fields]

/-- Witness for C1 at the spec's own test inputs. -/
theorem save_report_field_invalid_cases_witness :
    save_report_field emptyBugReport "nonexistent_field" "x" =
      ("Error: \x27" ++ "nonexistent_field" ++ "\x27 is not a valid field. Valid fields are: " ++
        String.intercalate ", " valid_fields, emptyBugReport) ∧
    save_report_field emptyBugReport "priority" "Critical" =
      ("Error: priority must be one of: Urgent, High, Medium, Low. Got: " ++ "Critical",
        emptyBugReport) ∧
    save_report_field emptyBugReport "issue_type" "question" =
      ("Error: issue_type must be one of: bug, feature_request. Got: " ++ "question",
        emptyBugReport) :=
  ⟨(save_report_field_invalid_cases emptyBugReport "nonexistent_field" "x").1 (by decide),
   (save_report_field_invalid_cases emptyBugReport "priority" "Critical").2.1 rfl (by decide),
   (save_report_field_invalid_cases emptyBugReport "issue_type" "question").2.2 rfl (by decide)⟩

/-! ## C2 -/

/-- C2: after any sequence of `save_report_field` calls on a fresh record,
each of the 11 fields holds exactly the value of the last valid write to it
in the sequence, and is unset when the sequence contains no valid write to it
(failed calls contribute nothing). -/
theorem last_write_wins (calls : List (String × String)) (f : String)
    (hf : f ∈ valid_fields) :
    getField (apply_calls emptyBugReport calls) f = last_valid_write calls f := by
  rw [getField_apply_calls calls emptyBugReport f hf, getField_empty f hf]
  cases last_valid_write calls f <;> rfl

/-- A demonstration call sequence: two corrections of `description`, one
rejected enum value, one unknown field, one valid enum write. -/
def demo_calls : List (String × String) :=
  [("description", "first try"), ("priority", "Critical"),
   ("description", "second try"), ("bogus_field", "x"), ("priority", "High")]

/-- Witness for C2 on `demo_calls`: the second `description` write wins, the
rejected `Critical` write contributes nothing while the later `High` write
lands, and the unknown-field write leaves every field untouched. -/
theorem last_write_wins_witness :
    getField (apply_calls emptyBugReport demo_calls) "description" = some "second try" ∧
    getField (apply_calls emptyBugReport demo_calls) "priority" = some "High" ∧
    getField (apply_calls emptyBugReport demo_calls) "issue_type" = none := by
  refine ⟨?_, ?_, ?_⟩
  · rw [last_write_wins demo_calls "description" (by decide)]; decide
  · rw [last_write_wins demo_calls "priority" (by decide)]; decide
  · rw [last_write_wins demo_calls "issue_type" (by decide)]; decide

/-! ## C3 and C4 -/

theorem data_head_append (s t : String) (h : s.data ≠ []) :
    (s ++ t).data.head? = s.data.head? := by
  rw [String.data_append]
  cases hd : s.data with
  | nil => exact absurd hd h
  | cons c cs => rfl

theorem data_second_append (s t : String) (h : 1 < s.data.length) :
    (s ++ t).data[1]? = s.data[1]? := by
  rw [String.data_append]
  exact List.getElem?_append_left h

theorem missing_nil_iff (r : BugReport) :
    r.get_missing_required_fields = [] ↔
      ∀ f ∈ required_fields, (getField r f).isSome := by
  unfold BugReport.get_missing_required_fields
  rw [List.filter_eq_nil_iff]
  constructor
  · intro h f hf
    have h2 := h f hf
    cases hx : getField r f
    · rw [hx] at h2
      exact absurd rfl h2
    · rfl
  · intro h f hf
    have h2 := h f hf
    cases hx : getField r f
    · rw [hx] at h2
      exact absurd h2 (by decide)
    · simp

/-- C3: the missing-required list is exactly the required names whose field is
not set; it is empty exactly when `generate_summary` sends a summary; when it
is empty the status report ends with the complete-and-ready sentence and
contains no missing-list sentence; and when it is non-empty the status report
ends with the missing-list sentence instead. -/
theorem get_report_status_missing_list (r : BugReport) :
    r.get_missing_required_fields =
        required_fields.filter (fun f => !(getField r f).isSome) ∧
    (r.get_missing_required_fields = [] ↔ ((generate_summary r).1.2).isSome) ∧
    (r.get_missing_required_fields = [] →
      (status_parts r).getLast? =
          some "\nAll required fields collected! Ready to summarise and confirm with the client." ∧
        ∀ m : String, ("\nStill needed (required): " ++ m) ∉ status_parts r) ∧
    (r.get_missing_required_fields ≠ [] →
      (status_parts r).getLast? =
        some ("\nStill needed (required): " ++
          String.intercalate ", " r.get_missing_required_fields)) := by
  refine ⟨?_, ⟨fun hm => ?_, fun hs => ?_⟩, fun hm => ?_, fun hm => ?_⟩
  · exact List.filter_congr (fun f _ => by cases getField r f <;> rfl)
  · simp [generate_summary, hm]
  · by_contra hm
    simp [generate_summary, hm] at hs
  · have hsp : status_parts r =
        (if r.get_filled_fields ≠ [] then
          "Collected so far:" ::
            r.get_filled_fields.map (fun fv => "  - " ++ fv.1 ++ ": " ++ display_value fv.2)
        else []) ++
        ["\nAll required fields collected! Ready to summarise and confirm with the client."] := by
      simp [status_parts, hm]
    constructor
    · rw [hsp]
      exact List.getLast?_concat _
    · intro m hmem
      rw [hsp] at hmem
      have hS : ("\nStill needed (required): " ++ m).data.head? = some '\n' := by
        rw [data_head_append _ _ (by decide)]
        decide
      have hS2 : ("\nStill needed (required): " ++ m).data[1]? = some 'S' := by
        rw [data_second_append _ _ (by decide)]
        decide
      rcases List.mem_append.1 hmem with h1 | h1
      · by_cases hf : r.get_filled_fields ≠ []
        · rw [if_pos hf] at h1
          rcases List.mem_cons.1 h1 with h2 | h2
          · rw [h2] at hS
            exact absurd hS (by decide)
          · rcases List.mem_map.1 h2 with ⟨fv, _, h3⟩
            have e1 : ("  - " ++ fv.1).data.head? = some ' ' := by
              rw [data_head_append _ _ (by decide)]
              decide
            have ne1 : ("  - " ++ fv.1).data ≠ [] := by
              intro hx
              rw [hx] at e1
              exact Option.noConfusion e1
            have e2 : ("  - " ++ fv.1 ++ ": ").data.head? = some ' ' := by
              rw [data_head_append _ _ ne1]
              exact e1
            have ne2 : ("  - " ++ fv.1 ++ ": ").data ≠ [] := by
              intro hx
              rw [hx] at e2
              exact Option.noConfusion e2
            have e3 : ("  - " ++ fv.1 ++ ": " ++ display_value fv.2).data.head? = some ' ' := by
              rw [data_head_append _ _ ne2]
              exact e2
            rw [h3, hS] at e3
            exact absurd e3 (by decide)
        · rw [if_neg hf] at h1
          exact absurd h1 (List.not_mem_nil _)
      · have h2 := List.mem_singleton.1 h1
        rw [h2] at hS2
        exact absurd hS2 (by decide)
  · have hsp : status_parts r =
        (if r.get_filled_fields ≠ [] then
          "Collected so far:" ::
            r.get_filled_fields.map (fun fv => "  - " ++ fv.1 ++ ": " ++ display_value fv.2)
        else []) ++
        ["\nStill needed (required): " ++
          String.intercalate ", " r.get_missing_required_fields] := by
      simp [status_parts, hm]
    rw [hsp]
    exact List.getLast?_concat _

/-- The spec's complete-report test vector: exactly the five required fields
set. -/
def r_full : BugReport :=
  { description := some "audio cuts out",
    expected_behaviour := some "audio plays fully",
    steps_to_reproduce := some "open page, click play",
    priority := some "High",
    issue_type := some "bug" }

/-- Witness for C3 at two concrete records: the empty record (all required
missing) and the complete test record. -/
theorem get_report_status_missing_list_witness :
    emptyBugReport.get_missing_required_fields =
        required_fields.filter (fun f => !(getField emptyBugReport f).isSome) ∧
    (status_parts emptyBugReport).getLast? =
        some ("\nStill needed (required): " ++
          String.intercalate ", " emptyBugReport.get_missing_required_fields) ∧
    (status_parts r_full).getLast? =
        some "\nAll required fields collected! Ready to summarise and confirm with the client." :=
  ⟨(get_report_status_missing_list emptyBugReport).1,
   (get_report_status_missing_list emptyBugReport).2.2.2 (by decide),
   ((get_report_status_missing_list r_full).2.2.1 (by decide)).1⟩

/-- C4: `generate_summary` fails, reporting the missing-required list and
sending no summary, whenever some required field is unset, and succeeds
(sending the rendered summary) whenever all five required fields are set. -/
theorem generate_summary_gate (r : BugReport) :
    ((∃ f ∈ required_fields, getField r f = none) →
      generate_summary r =
        (("Cannot generate summary yet. Missing required fields: " ++
          String.intercalate ", " r.get_missing_required_fields, none), r)) ∧
    ((∀ f ∈ required_fields, (getField r f).isSome) →
      generate_summary r =
        (("Summary sent to client. Ask them to confirm if everything looks correct, or let you know what needs to be changed.",
          some (String.intercalate "\n" (summary_lines r))), r)) := by
  constructor
  · rintro ⟨f, hf, hnone⟩
    have hne : r.get_missing_required_fields ≠ [] := by
      intro h0
      have h2 := (missing_nil_iff r).1 h0 f hf
      rw [hnone] at h2
      exact absurd h2 (by decide)
    simp [generate_summary, hne]
  · intro hall
    have h0 : r.get_missing_required_fields = [] := (missing_nil_iff r).2 hall
    simp [generate_summary, h0]

/-- Witness for C4 at the empty record (failure) and the complete test record
(success). -/
theorem generate_summary_gate_witness :
    generate_summary emptyBugReport =
      (("Cannot generate summary yet. Missing required fields: " ++
        String.intercalate ", " emptyBugReport.get_missing_required_fields, none),
        emptyBugReport) ∧
    generate_summary r_full =
      (("Summary sent to client. Ask them to confirm if everything looks correct, or let you know what needs to be changed.",
        some (String.intercalate "\n" (summary_lines r_full))), r_full) :=
  ⟨(generate_summary_gate emptyBugReport).1 ⟨"description", by decide, rfl⟩,
   (generate_summary_gate r_full).2 (by decide)⟩

/-! ## C5 -/

/-- The optional fields `generate_summary` actually renders, as
(label, accessor) pairs in the order the source appends them.  There is no
entry for `logged_in_user`: the source never renders it. -/
def rendered_optional_fields : List (String × (BugReport → Option String)) :=
  [("\n**Error Message:** ", fun r => r.error_message),
   ("**URL:** ", fun r => r.url),
   ("**Page:** ", fun r => r.page_title),
   ("**Browser:** ", fun r => r.browser),
   ("**Recording:** ", fun r => r.loom_link)]

/-- A complete record that additionally carries a `logged_in_user` value. -/
def r_logged : BugReport :=
  { description := some "audio cuts out",
    expected_behaviour := some "audio plays fully",
    steps_to_reproduce := some "open page, click play",
    priority := some "High",
    issue_type := some "bug",
    logged_in_user := some "zzqqxuser" }

set_option maxRecDepth 16384 in
/-- Counterexample to C5 as stated: on `r_logged` the optional field
`logged_in_user` is set, `generate_summary` succeeds, yet the set value
appears nowhere in the summary text — the summary does not render every set
optional field. -/
theorem summary_omits_logged_in_user_cex :
    r_logged.logged_in_user = some "zzqqxuser" ∧
    ((generate_summary r_logged).1.2).isSome ∧
    ¬("zzqqxuser".data <:+: (((generate_summary r_logged).1.2).getD "").data) := by
  decide

/-- C5 (amended): with the required fields set, the summary renders them
first in the fixed order issue_type, priority, description,
expected_behaviour, steps_to_reproduce; the optional lines that follow are
exactly those of `error_message`, `url`, `page_title`, `browser`,
`loom_link`, in that order, each present iff its field is set to a non-empty
string; and `logged_in_user` has no effect on the summary at all. -/
theorem summary_renders_fields :
    (∀ (r : BugReport) (it p d eb sr : String),
      r.issue_type = some it → r.priority = some p → r.description = some d →
      r.expected_behaviour = some eb → r.steps_to_reproduce = some sr →
      summary_lines r =
        ["## Bug Report Summary", "",
         "**Issue Type:** " ++ it, "**Priority:** " ++ p, "",
         "**Description:** " ++ d, "",
         "**Expected Behaviour:** " ++ eb, "",
         "**Steps to Reproduce:** " ++ sr] ++ optional_summary_lines r) ∧
    (∀ r : BugReport,
      optional_summary_lines r =
        (rendered_optional_fields.filter (fun sp => truthy (sp.2 r))).map
          (fun sp => sp.1 ++ pyStr (sp.2 r))) ∧
    (∀ (r : BugReport) (x : Option String),
      summary_lines { r with logged_in_user := x } = summary_lines r) := by
  refine ⟨fun r it p d eb sr h1 h2 h3 h4 h5 => ?_, fun r => ?_, fun r x => ?_⟩
  · simp [summary_lines, required_summary_lines, h1, h2, h3, h4, h5, pyStr]
  · cases h1 : truthy r.error_message <;> cases h2 : truthy r.url <;>
      cases h3 : truthy r.page_title <;> cases h4 : truthy r.browser <;>
      cases h5 : truthy r.loom_link <;>
      simp [optional_summary_lines, rendered_optional_fields, h1, h2, h3, h4, h5]
  · rfl

/-- Witness for C5 (amended) at the spec's complete test record: all five
required values appear, in order, and no optional-field line is rendered. -/
theorem summary_renders_fields_witness :
    summary_lines r_full =
      ["## Bug Report Summary", "",
       "**Issue Type:** " ++ "bug", "**Priority:** " ++ "High", "",
       "**Description:** " ++ "audio cuts out", "",
       "**Expected Behaviour:** " ++ "audio plays fully", "",
       "**Steps to Reproduce:** " ++ "open page, click play"] ++
        optional_summary_lines r_full ∧
    optional_summary_lines r_full = [] := by
  constructor
  · exact summary_renders_fields.1 r_full "bug" "High" "audio cuts out"
      "audio plays fully" "open page, click play" rfl rfl rfl rfl rfl
  · rw [summary_renders_fields.2.1 r_full]
    decide

/-! ## C6 and C7 -/

/-- A configured repo path whose `docs/ai` folder does not exist. -/
def missing_docs_dir : DocsDir := { dirExists := false, mdFiles := [] }

/-- A `docs/ai` folder that exists but contains no markdown files. -/
def empty_docs_dir : DocsDir := { dirExists := true, mdFiles := [] }

/-- The two-document corpus of the spec's merge test, listed out of sorted
order to exercise the sort. -/
def two_docs_dir : DocsDir :=
  { dirExists := true,
    mdFiles := [("b_second.md", "Body two here"), ("a_first.md", "Body one here")] }

/-- Counterexample to C6 as stated: with a configured location whose folder
is absent, `load_product_docs` returns a non-empty sentinel string rather
than an empty corpus, so the built instruction document is not byte-identical
to the unconfigured case (which is the template verbatim). -/
theorem absent_docs_not_template_cex :
    load_product_docs "repo" missing_docs_dir = "No documentation found at repo/docs/ai" ∧
    build_agent_instructions none = base_instructions ∧
    build_agent_instructions (some (load_product_docs "repo" missing_docs_dir)) ≠
      build_agent_instructions none := by
  refine ⟨rfl, rfl, fun h => ?_⟩
  have hb : build_agent_instructions (some (load_product_docs "repo" missing_docs_dir)) =
      base_instructions ++ product_context "No documentation found at repo/docs/ai" := rfl
  have hn : build_agent_instructions none = base_instructions := rfl
  rw [hb, hn] at h
  have hl := congrArg String.length h
  rw [String.length_append] at hl
  have hpos : 0 < (product_context "No documentation found at repo/docs/ai").length := by
    decide
  omega

/-- C6 (amended): an unset reference location yields the template verbatim;
but a configured location that is absent, or whose folder holds no matching
documents, makes `load_product_docs` return a non-empty sentinel message
instead of an empty corpus, and `build_agent_instructions` on any non-empty
docs string appends the product-knowledge section, so its output differs from
the unconfigured (template-verbatim) output. -/
theorem docs_sentinel_instructions (repo_path : String) (d : DocsDir) :
    (d.dirExists = false →
      load_product_docs repo_path d =
        "No documentation found at " ++ (repo_path ++ "/docs/ai")) ∧
    (d.dirExists = true → d.mdFiles = [] →
      load_product_docs repo_path d =
        "No .md files found in " ++ (repo_path ++ "/docs/ai")) ∧
    build_agent_instructions none = base_instructions ∧
    (∀ s : String, s ≠ "" →
      build_agent_instructions (some s) = base_instructions ++ product_context s ∧
        build_agent_instructions (some s) ≠ base_instructions) := by
  refine ⟨fun h => ?_, fun h1 h2 => ?_, rfl, fun s hs => ⟨?_, fun h => ?_⟩⟩
  · simp [load_product_docs, h]
  · simp [load_product_docs, h1, h2, py_sorted]
  · simp [build_agent_instructions, hs]
  · have hb : build_agent_instructions (some s) = base_instructions ++ product_context s := by
      simp [build_agent_instructions, hs]
    have he : base_instructions ++ product_context s = base_instructions := by
      rw [← hb, h]
    have hl := congrArg String.length he
    rw [String.length_append] at hl
    have hlen : (product_context s).length =
        product_context_header.length + s.length + product_context_footer.length := by
      unfold product_context
      rw [String.length_append, String.length_append]
    have hh : 0 < product_context_header.length := by decide
    omega

/-- Witness for C6 (amended) at concrete directories. -/
theorem docs_sentinel_instructions_witness :
    load_product_docs "repo" missing_docs_dir =
      "No documentation found at " ++ ("repo" ++ "/docs/ai") ∧
    load_product_docs "repo" empty_docs_dir =
      "No .md files found in " ++ ("repo" ++ "/docs/ai") ∧
    build_agent_instructions (some "docs") =
      base_instructions ++ product_context "docs" ∧
    build_agent_instructions (some "docs") ≠ base_instructions :=
  ⟨(docs_sentinel_instructions "repo" missing_docs_dir).1 rfl,
   (docs_sentinel_instructions "repo" empty_docs_dir).2.1 rfl rfl,
   ((docs_sentinel_instructions "repo" empty_docs_dir).2.2.2 "docs" (by decide)).1,
   ((docs_sentinel_instructions "repo" empty_docs_dir).2.2.2 "docs" (by decide)).2⟩

/-- C7: with no corpus the instruction document is the template verbatim;
with the two-document corpus the loaded docs string carries both titles
(derived from the base names) and both bodies in ascending filename order,
each introduced by a `### ` title marker and separated by `---`, and the
built instruction document is the full template followed by the reference
section around exactly that string. -/
theorem build_instructions_merge :
    build_agent_instructions none = base_instructions ∧
    load_product_docs "repo" two_docs_dir =
      "### a_first\n\nBody one here\n\n---\n\n### b_second\n\nBody two here" ∧
    build_agent_instructions (some (load_product_docs "repo" two_docs_dir)) =
      base_instructions ++
        product_context
          "### a_first\n\nBody one here\n\n---\n\n### b_second\n\nBody two here" := by
  refine ⟨rfl, by decide, ?_⟩
  rfl

/-! ## C8 -/

/-- C8: `generate_summary` is idempotent and deterministic over the record:
re-invoking it on the record it returns gives the identical result, its
result is a pure function of the eleven field values, and on a complete
record the sent text is exactly the rendering of the current field values. -/
theorem generate_summary_pure :
    (∀ r : BugReport, generate_summary (generate_summary r).2 = generate_summary r) ∧
    (∀ r₁ r₂ : BugReport, (∀ f ∈ valid_fields, getField r₁ f = getField r₂ f) →
      generate_summary r₁ = generate_summary r₂) ∧
    (∀ r : BugReport, r.get_missing_required_fields = [] →
      (generate_summary r).1.2 = some (String.intercalate "\n" (summary_lines r))) := by
  refine ⟨fun r => ?_, fun r₁ r₂ h => ?_, fun r hm => ?_⟩
  · have h2 : (generate_summary r).2 = r := by
      by_cases hm : r.get_missing_required_fields = [] <;> simp [generate_summary, hm]
    rw [h2]
  · have he : r₁ = r₂ := by
      obtain ⟨d1, e1, s1, p1, i1, m1, l1, u1, g1, b1, k1⟩ := r₁
      obtain ⟨d2, e2, s2, p2, i2, m2, l2, u2, g2, b2, k2⟩ := r₂
      have h1 := h "description" (by decide)
      have h2 := h "expected_behaviour" (by decide)
      have h3 := h "steps_to_reproduce" (by decide)
      have h4 := h "priority" (by decide)
      have h5 := h "issue_type" (by decide)
      have h6 := h "error_message" (by decide)
      have h7 := h "logged_in_user" (by decide)
      have h8 := h "url" (by decide)
      have h9 := h "page_title" (by decide)
      have h10 := h "browser" (by decide)
      have h11 := h "loom_link" (by decide)
      simp only [getField] at h1 h2 h3 h4 h5 h6 h7 h8 h9 h10 h11
      simp only [BugReport.mk.injEq]
      exact ⟨h1, h2, h3, h4, h5, h6, h7, h8, h9, h10, h11⟩
    rw [he]
  · simp [generate_summary, hm]

/-- Witness for C8 at the complete test record. -/
theorem generate_summary_pure_witness :
    generate_summary (generate_summary r_full).2 = generate_summary r_full ∧
    (generate_summary r_full).1.2 =
      some (String.intercalate "\n" (summary_lines r_full)) :=
  ⟨generate_summary_pure.1 r_full, generate_summary_pure.2.2 r_full (by decide)⟩

/-! ## C9 -/

/-- C9: every set field is listed by the status report with its value shown
verbatim when it is at most 100 characters and as its first 100 characters
plus an ellipsis marker when longer, while the record itself is returned
unchanged (the stored value is untouched by display truncation). -/
theorem get_report_status_display (r : BugReport) (field v : String)
    (hf : field ∈ valid_fields) (hv : getField r field = some v) :
    ("  - " ++ field ++ ": " ++ display_value v) ∈ status_parts r ∧
    (v.length ≤ 100 → display_value v = v) ∧
    (100 < v.length → display_value v = v.take 100 ++ "...") ∧
    (get_report_status r).2 = r := by
  refine ⟨?_, fun h => ?_, fun h => ?_, rfl⟩
  · have hmem : (field, v) ∈ r.get_filled_fields := by
      unfold BugReport.get_filled_fields
      exact List.mem_filterMap.2 ⟨field, hf, by rw [hv]; rfl⟩
    have hline : ("  - " ++ field ++ ": " ++ display_value v) ∈
        r.get_filled_fields.map (fun fv => "  - " ++ fv.1 ++ ": " ++ display_value fv.2) :=
      List.mem_map.2 ⟨(field, v), hmem, rfl⟩
    have hne : r.get_filled_fields ≠ [] := by
      intro h0
      rw [h0] at hmem
      exact absurd hmem (List.not_mem_nil _)
    have hsp : status_parts r =
        ("Collected so far:" ::
          r.get_filled_fields.map (fun fv => "  - " ++ fv.1 ++ ": " ++ display_value fv.2)) ++
        (if r.get_missing_required_fields ≠ [] then
          ["\nStill needed (required): " ++
            String.intercalate ", " r.get_missing_required_fields]
        else
          ["\nAll required fields collected! Ready to summarise and confirm with the client."]) := by
      simp [status_parts, hne]
    rw [hsp]
    exact List.mem_append.2 (Or.inl (List.mem_cons.2 (Or.inr hline)))
  · unfold display_value
    rw [if_pos h]
  · unfold display_value
    rw [if_neg (by omega)]

/-- A record with one value longer than 100 characters and one short value. -/
def r_long : BugReport :=
  { description := some (String.mk (List.replicate 150 'x')),
    browser := some "Firefox" }

/-- Witness for C9 on `r_long`: the short value is displayed verbatim, the
long value is cut to 100 characters plus the ellipsis marker, and the record
comes back unchanged. -/
theorem get_report_status_display_witness :
    ("  - " ++ "browser" ++ ": " ++ display_value "Firefox") ∈ status_parts r_long ∧
    display_value "Firefox" = "Firefox" ∧
    display_value (String.mk (List.replicate 150 'x')) =
      (String.mk (List.replicate 150 'x')).take 100 ++ "..." ∧
    (get_report_status r_long).2 = r_long := by
  have h := get_report_status_display r_long "browser" "Firefox" (by decide) rfl
  have h2 := get_report_status_display r_long "description"
    (String.mk (List.replicate 150 'x')) (by decide) rfl
  exact ⟨h.1, h.2.1 (by decide), h2.2.2.1 (by decide), h.2.2.2⟩

/-! ## C10 -/

/-- Required names are valid names. -/
theorem required_sub_valid : ∀ f ∈ required_fields, f ∈ valid_fields := by decide

/-- C10: `save_report_field` performs no non-emptiness check — for every
valid non-enum field, saving the empty string succeeds, stores the empty
string, and the field thereafter counts as set: it leaves the
missing-required list, and once the other required fields are set a required
field written as `""` no longer blocks `generate_summary`. -/
theorem empty_string_counts_as_set (field : String) (r : BugReport)
    (hf : field ∈ valid_fields) (hp : field ≠ "priority") (hi : field ≠ "issue_type") :
    (save_report_field r field "").1 = "Saved " ++ field ++ ": " ++ "" ∧
    getField (save_report_field r field "").2 field = some "" ∧
    field ∉ ((save_report_field r field "").2).get_missing_required_fields ∧
    (field ∈ required_fields →
      (∀ g ∈ required_fields, g ≠ field → (getField r g).isSome) →
      ((generate_summary (save_report_field r field "").2).1.2).isSome) := by
  have hvc : ValidCall field "" := ⟨hf, fun h => absurd h hp, fun h => absurd h hi⟩
  have hget : getField (save_report_field r field "").2 field = some "" := by
    rw [getField_save r field "" field hf]
    simp [hvc]
  refine ⟨?_, hget, fun hmem => ?_, fun hreq hrest => ?_⟩
  · simp [save_report_field, hf, hp, hi]
  · rcases List.mem_filter.1 hmem with ⟨_, hnone⟩
    rw [hget] at hnone
    exact absurd hnone (by decide)
  · have hmiss : ((save_report_field r field "").2).get_missing_required_fields = [] := by
      rw [missing_nil_iff]
      intro g hg
      by_cases hgf : g = field
      · subst hgf
        rw [hget]
        rfl
      · rw [getField_save r field "" g (required_sub_valid g hg)]
        rw [if_neg (fun hc => hgf hc.1.symm)]
        exact hrest g hg hgf
    simp [generate_summary, hmiss]

/-- Witness for C10: saving `""` to `description` on the empty record
succeeds and removes `description` from the missing-required list. -/
theorem empty_string_counts_as_set_witness :
    (save_report_field emptyBugReport "description" "").1 =
      "Saved " ++ "description" ++ ": " ++ "" ∧
    getField (save_report_field emptyBugReport "description" "").2 "description" =
      some "" ∧
    "description" ∉
      ((save_report_field emptyBugReport "description" "").2).get_missing_required_fields := by
  have h := empty_string_counts_as_set "description" emptyBugReport
    (by decide) (by decide) (by decide)
  exact ⟨h.1, h.2.1, h.2.2.1⟩
